import Mathlib

/-!
Verification of the async protocol layer in `asyncgrpc/protocol.py`.

The Python source is shallowly embedded: byte strings become `List ℕ`,
class instances become structures, `async` methods become step functions
that either complete with a result and the mutated state, report that
they would suspend, or report the exception they raise.  Awaiting an
`asyncio.Event` that is already set completes immediately, so those
paths are modelled as ordinary control flow; a wait on an unset event is
the `suspended` outcome.
-/

/-- Embedding of the module-level helper `_slice(chunks, size)`
(protocol.py lines 14-26).  The loop state is the triple
`(first, first_size, second)`; exactly as in the source, `first_size`
is initialised to `0` and never updated afterwards. -/
def sliceLoop (size : ℕ) : List (List ℕ) → List (List ℕ) → ℕ → List (List ℕ) →
    List (List ℕ) × List (List ℕ)
  | [], first, _, second => (first, second)
  | chunk :: rest, first, first_size, second =>
    if first_size < size then
      if first_size + chunk.length ≤ size then
        sliceLoop size rest (first ++ [chunk]) first_size second
      else
        let slice_size := size - first_size
        sliceLoop size rest (first ++ [chunk.take slice_size]) first_size
          (second ++ [chunk.drop slice_size])
    else
      sliceLoop size rest first first_size (second ++ [chunk])

/-- `_slice(chunks, size)` returns `(first, second)`. -/
def pySlice (chunks : List (List ℕ)) (size : ℕ) : List (List ℕ) × List (List ℕ) :=
  sliceLoop size chunks [] 0 []

/-- State of a `Buffer` (protocol.py lines 29-64): the chunk list, the
running `_length`, the pending-read threshold `_complete_size`
(`-1` = unset) and whether `_complete_event` is set. -/
structure Buffer where
  chunks : List (List ℕ)
  length : ℕ
  complete_size : Int
  complete_event : Bool
deriving DecidableEq, Repr

/-- `Buffer.__init__`: empty chunk list, length 0, threshold `-1`,
completion event unset. -/
def Buffer.init : Buffer := ⟨[], 0, -1, false⟩

/-- `Buffer.append(data)`: append the chunk, add its length, then if a
threshold is set and the (updated) length reaches it, set the
completion event. -/
def Buffer.append (b : Buffer) (data : List ℕ) : Buffer :=
  let b' : Buffer := { b with chunks := b.chunks ++ [data], length := b.length + data.length }
  if b'.complete_size ≠ -1 then
    if (b'.length : Int) ≥ b'.complete_size then { b' with complete_event := true }
    else b'
  else b'

/-- `Buffer.eof()`: unconditionally set the completion event. -/
def Buffer.eof (b : Buffer) : Buffer :=
  { b with complete_event := true }

/-- Outcome of one call to `Buffer.read`: a `ValueError` (buffer
unchanged), completion with the returned bytes and the mutated buffer,
or suspension on the completion event (the buffer as mutated before the
`await`). -/
inductive ReadResult where
  | error (b : Buffer)
  | done (data : List ℕ) (b : Buffer)
  | suspended (b : Buffer)
deriving DecidableEq, Repr

/-- `Buffer.read(size)` (protocol.py lines 48-64) as a step function.
`size = none` is Python's `size=None`.  A wait on the already-set
completion event completes immediately; in the sized branch the code
then resets `_complete_size`, clears `_complete_event`, and splits the
chunks with `_slice`.  If the event is not set the call suspends. -/
def Buffer.read (b : Buffer) (size : Option Int) : ReadResult :=
  match size with
  | none =>
    if b.complete_event then .done b.chunks.flatten b
    else .suspended b
  | some size =>
    if size < 0 then .error b
    else if size = 0 then .done [] b
    else
      if size > (b.length : Int) then
        if b.complete_event then
          let b' : Buffer := { b with complete_size := -1, complete_event := false }
          let ds := pySlice b'.chunks size.toNat
          .done ds.1.flatten { b' with chunks := ds.2 }
        else
          .suspended { b with complete_size := size }
      else
        let ds := pySlice b.chunks size.toNat
        .done ds.1.flatten { b with chunks := ds.2 }

/-- State of a `Connection` (protocol.py lines 67-91): only the
`write_ready` event is modelled; the `H2Connection` and transport
fields are opaque handles with no state of their own in this layer. -/
structure Connection where
  write_ready : Bool
deriving DecidableEq, Repr

/-- `Connection.__init__`: creates the `write_ready` event and
immediately sets it. -/
def Connection.init : Connection := ⟨true⟩

/-- `Connection.pause_writing()`: clear `write_ready`. -/
def Connection.pause_writing (_ : Connection) : Connection := ⟨false⟩

/-- `Connection.resume_writing()`: set `write_ready`. -/
def Connection.resume_writing (_ : Connection) : Connection := ⟨true⟩

/-- The transport backpressure callbacks a `Connection` can receive
(forwarded by `H2Protocol.pause_writing` / `resume_writing`). -/
inductive ConnOp where
  | pause_writing
  | resume_writing
deriving DecidableEq, Repr

/-- Apply one backpressure callback. -/
def Connection.apply (c : Connection) : ConnOp → Connection
  | .pause_writing => c.pause_writing
  | .resume_writing => c.resume_writing

/-- Apply a sequence of backpressure callbacks in order. -/
def Connection.applyAll (c : Connection) : List ConnOp → Connection
  | [] => c
  | op :: rest => (c.apply op).applyAll rest

/-- Outcome of one step of `Stream.send_headers`: either the call
suspends on the connection's `write_ready` gate, or it submits the
header block (with its `end_stream` flag) to the engine. -/
inductive SendHeadersStep where
  | blockedOnGate
  | sent (headers : List (String × String)) (es : Bool)
deriving DecidableEq, Repr

/-- `Stream.send_headers` (protocol.py lines 118-123) as a step
function: `if not write_ready.is_set(): await wait()` then one
`h2_conn.send_headers` call followed by a flush. -/
def Stream.send_headers (c : Connection) (headers : List (String × String))
    (end_stream : Bool) : SendHeadersStep :=
  if c.write_ready = false then .blockedOnGate
  else .sent headers end_stream

/-- Outcome of `Stream.send_data`: the call suspended on the
`write_ready` gate, or it completed and `out` lists, in order, the
pairs `(chunk, end_stream flag)` passed to the engine's `send_data`. -/
inductive SendOutcome where
  | blockedOnGate
  | out (chunks : List (List ℕ × Bool))
deriving DecidableEq, Repr

/-- The loop of `Stream.send_data` (protocol.py lines 125-149).
`w` is the sequence of values returned by successive
`local_flow_control_window` calls; `qi` counts those calls.  When the
queried window is zero the source clears `__window_updated__`, awaits
it, and queries the window again, which consumes the next value of `w`.
`f_chunk = f.read(min(window, f_last - f_pos))` on a `BytesIO` over
`data` is `(data.drop pos).take (min window (len - pos))`, and
`f.tell()` is `pos + f_chunk.length`.  `fuel` bounds the number of
iterations; `none` means the bound ran out. -/
def sendDataLoop (c : Connection) (data : List ℕ) (end_stream : Bool) (w : ℕ → ℕ) :
    ℕ → ℕ → ℕ → Option SendOutcome
  | 0, _, _ => none
  | fuel + 1, pos, qi =>
    if c.write_ready = false then some SendOutcome.blockedOnGate else
    let window := if w qi = 0 then w (qi + 1) else w qi
    let qi' := if w qi = 0 then qi + 2 else qi + 1
    let f_chunk := (data.drop pos).take (min window (data.length - pos))
    let f_pos := pos + f_chunk.length
    if f_pos = data.length then
      some (SendOutcome.out [(f_chunk, end_stream)])
    else
      match sendDataLoop c data end_stream w fuel f_pos qi' with
      | none => none
      | some SendOutcome.blockedOnGate => some SendOutcome.blockedOnGate
      | some (SendOutcome.out rest) => some (SendOutcome.out ((f_chunk, false) :: rest))

/-- `Stream.send_data(data, end_stream)` starting at file position 0
and window-query index 0. -/
def Stream.send_data (c : Connection) (data : List ℕ) (end_stream : Bool)
    (w : ℕ → ℕ) (fuel : ℕ) : Option SendOutcome :=
  sendDataLoop c data end_stream w fuel 0 0

/-- Outcome of `Stream.recv_data`: the propagated `ValueError`, a
suspension inside the buffer read, or completion carrying the returned
bytes, the byte count passed to the engine's
`acknowledge_received_data`, and the mutated buffer. -/
inductive RecvResult where
  | error (b : Buffer)
  | suspended (b : Buffer)
  | done (data : List ℕ) (ack : ℕ) (b : Buffer)
deriving DecidableEq, Repr

/-- `Stream.recv_data(size)` (protocol.py lines 113-116): read from the
stream's buffer, then call
`acknowledge_received_data(len(data), self.id)` and return the data. -/
def Stream.recv_data (b : Buffer) (size : Option Int) : RecvResult :=
  match b.read size with
  | .error b' => .error b'
  | .suspended b' => .suspended b'
  | .done data b' => .done data data.length b'

/-- One h2 event, as consumed by `EventsProcessor.process`.  The first
eleven constructors are the event classes registered in the
`processors` dict; `unknown` stands for any other event class (its
payload is the class name). -/
inductive H2Event where
  | requestReceived (stream_id : ℕ) (headers : List (String × String))
  | responseReceived (stream_id : ℕ) (headers : List (String × String))
  | remoteSettingsChanged
  | settingsAcknowledged
  | dataReceived (stream_id : ℕ) (data : List ℕ)
  | windowUpdated (stream_id : ℕ)
  | trailersReceived (stream_id : ℕ) (headers : List (String × String))
  | streamEnded (stream_id : ℕ)
  | streamReset (stream_id : ℕ)
  | priorityUpdated
  | connectionTerminated
  | unknown (cls_name : String)
deriving DecidableEq, Repr

/-- The class (Python `event.__class__`) of an event, used as the key
into the `processors` dict. -/
inductive EventClass where
  | requestReceived
  | responseReceived
  | remoteSettingsChanged
  | settingsAcknowledged
  | dataReceived
  | windowUpdated
  | trailersReceived
  | streamEnded
  | streamReset
  | priorityUpdated
  | connectionTerminated
  | unknown (cls_name : String)
deriving DecidableEq, Repr

/-- `event.__class__`. -/
def H2Event.cls : H2Event → EventClass
  | .requestReceived .. => .requestReceived
  | .responseReceived .. => .responseReceived
  | .remoteSettingsChanged => .remoteSettingsChanged
  | .settingsAcknowledged => .settingsAcknowledged
  | .dataReceived .. => .dataReceived
  | .windowUpdated .. => .windowUpdated
  | .trailersReceived .. => .trailersReceived
  | .streamEnded .. => .streamEnded
  | .streamReset .. => .streamReset
  | .priorityUpdated => .priorityUpdated
  | .connectionTerminated => .connectionTerminated
  | .unknown s => .unknown s

/-- Names of the `EventsProcessor.process_*` methods. -/
inductive ProcName where
  | process_request_received
  | process_response_received
  | process_remote_settings_changed
  | process_settings_acknowledged
  | process_data_received
  | process_window_updated
  | process_trailers_received
  | process_stream_ended
  | process_stream_reset
  | process_priority_updated
  | process_connection_terminated
deriving DecidableEq, Repr

/-- The `self.processors` dict literal of `EventsProcessor.__init__`
(protocol.py lines 162-174), in source order. -/
def processors : List (EventClass × ProcName) :=
  [(.requestReceived, .process_request_received),
   (.responseReceived, .process_response_received),
   (.remoteSettingsChanged, .process_remote_settings_changed),
   (.settingsAcknowledged, .process_settings_acknowledged),
   (.dataReceived, .process_data_received),
   (.windowUpdated, .process_window_updated),
   (.trailersReceived, .process_trailers_received),
   (.streamEnded, .process_stream_ended),
   (.streamReset, .process_stream_reset),
   (.priorityUpdated, .process_priority_updated),
   (.connectionTerminated, .process_connection_terminated)]

/-- Python dict lookup `d[k]` on an association list: `none` is a
`KeyError`. -/
def dictGet : List (EventClass × ProcName) → EventClass → Option ProcName
  | [], _ => none
  | (k, v) :: rest, c => if k = c then some v else dictGet rest c

/-- Per-stream state held by the processor: the stream's inbound
`Buffer`, the contents of its `__headers__` queue, and whether its
`__window_updated__` event is set (`Stream.__init__`,
protocol.py lines 98-108). -/
structure StreamState where
  buffer : Buffer
  headers_q : List (List (String × String))
  window_updated : Bool
deriving DecidableEq, Repr

/-- A freshly constructed `Stream`: empty buffer, empty header queue,
window event unset. -/
def StreamState.init : StreamState := ⟨Buffer.init, [], false⟩

/-- The `EventsProcessor` state: its `self.streams` dict. -/
structure PState where
  streams : List (ℕ × StreamState)
deriving DecidableEq, Repr

/-- Dict lookup in `self.streams`. -/
def PState.getStream (st : PState) (sid : ℕ) : Option StreamState :=
  st.streams.lookup sid

/-- Dict assignment `self.streams[sid] = s`. -/
def setAssoc : List (ℕ × StreamState) → ℕ → StreamState → List (ℕ × StreamState)
  | [], sid, s => [(sid, s)]
  | (k, v) :: rest, sid, s =>
    if k = sid then (sid, s) :: rest else (k, v) :: setAssoc rest sid s

/-- Exceptions the processor can raise: a `KeyError` from
`self.streams[...]`, the `NotImplementedError` of `process`, or a
processor applied to an event of the wrong class (unreachable through
`process`). -/
inductive PyErr where
  | keyError
  | notImplementedError
  | mismatch
deriving DecidableEq, Repr

/-- Externally visible calls a processor makes on the transport and the
handler. -/
inductive ExtCall where
  | transportClose
  | handlerClose
  | handlerAccept (stream_id : ℕ) (headers : List (String × String))
  | handlerCancel (stream_id : ℕ)
deriving DecidableEq, Repr

/-- Mutate the stream stored under `sid` (`self.streams[sid].<...>`);
a missing key is a `KeyError`. -/
def PState.updStream (st : PState) (sid : ℕ) (f : StreamState → StreamState) :
    Except PyErr PState :=
  match st.getStream sid with
  | none => .error .keyError
  | some s => .ok ⟨setAssoc st.streams sid (f s)⟩

/-- The individual `process_*` methods (protocol.py lines 200-235),
dispatched by name.  Each returns the new state and the list of
transport/handler calls it performs. -/
def runProcessor : ProcName → PState → H2Event → Except PyErr (PState × List ExtCall)
  | .process_request_received, st, .requestReceived sid headers =>
    .ok (⟨setAssoc st.streams sid StreamState.init⟩, [.handlerAccept sid headers])
  | .process_response_received, st, .responseReceived sid headers =>
    (st.updStream sid fun s => { s with headers_q := s.headers_q ++ [headers] }).map
      (fun st' => (st', []))
  | .process_remote_settings_changed, st, .remoteSettingsChanged => .ok (st, [])
  | .process_settings_acknowledged, st, .settingsAcknowledged => .ok (st, [])
  | .process_data_received, st, .dataReceived sid data =>
    (st.updStream sid fun s => { s with buffer := s.buffer.append data }).map
      (fun st' => (st', []))
  | .process_window_updated, st, .windowUpdated sid =>
    if sid > 0 then
      (st.updStream sid fun s => { s with window_updated := true }).map
        (fun st' => (st', []))
    else .ok (st, [])
  | .process_trailers_received, st, .trailersReceived sid headers =>
    (st.updStream sid fun s => { s with headers_q := s.headers_q ++ [headers] }).map
      (fun st' => (st', []))
  | .process_stream_ended, st, .streamEnded sid =>
    (st.updStream sid fun s => { s with buffer := s.buffer.eof }).map
      (fun st' => (st', []))
  | .process_stream_reset, st, .streamReset sid =>
    match st.getStream sid with
    | none => .error .keyError
    | some _ => .ok (st, [.handlerCancel sid])
  | .process_priority_updated, st, .priorityUpdated => .ok (st, [])
  | .process_connection_terminated, st, .connectionTerminated =>
    .ok (st, [.transportClose, .handlerClose])
  | _, _, _ => .error .mismatch

/-- `EventsProcessor.process(event)` (protocol.py lines 192-198): look
the event's class up in the `processors` dict; a `KeyError` there
becomes `raise NotImplementedError(event)`, otherwise the found
processor is called on the event. -/
def EventsProcessor.process (st : PState) (ev : H2Event) :
    Except PyErr (PState × List ExtCall) :=
  match dictGet processors ev.cls with
  | none => .error .notImplementedError
  | some p => runProcessor p st ev

/-- The `for event in events: self.processor.process(event)` loop of
`H2Protocol.data_received` (protocol.py lines 264-265).  Returns the
final state, the concatenated action trace, and the exception that
aborted the loop, if any (actions already performed are kept). -/
def processAll (st : PState) : List H2Event → PState × List ExtCall × Option PyErr
  | [] => (st, [], none)
  | ev :: rest =>
    match EventsProcessor.process st ev with
    | .error e => (st, [], some e)
    | .ok (st1, a1) =>
      let r := processAll st1 rest
      (r.1, a1 ++ r.2.1, r.2.2)

/-- C2: the claim states that after every sequence of Buffer operations
the running `_length` field equals the sum of the lengths of the chunks
currently held.  The code violates it: `Buffer.read` removes the
returned bytes from `chunks` but never decreases `length`.  After
`append [97, 98]` and `read 1`, the buffer holds one chunk of one byte
while its `length` field is still `2`. -/
theorem C2_length_field_diverges :
    Buffer.read (Buffer.init.append [97, 98]) (some 1)
      = ReadResult.done [97] ⟨[[98]], 2, -1, false⟩
    ∧ (Buffer.mk [[98]] 2 (-1) false).length
        ≠ ((Buffer.mk [[98]] 2 (-1) false).chunks.map List.length).sum := by
  decide

/-- C3: the claim states that once `eof` has fired the completion
signal, no later Buffer operation clears it.  The code violates it: a
sized `read` whose threshold exceeded `length` clears
`_complete_event` after its wait returns, so `eof` followed by
`read 1` on an empty buffer leaves the signal cleared (a later
`read None` would suspend forever instead of returning empty). -/
theorem C3_eof_signal_cleared_by_read :
    (Buffer.init.eof).complete_event = true
    ∧ Buffer.read Buffer.init.eof (some 1) = ReadResult.done [] ⟨[], 0, -1, false⟩
    ∧ (Buffer.mk [] 0 (-1) false).complete_event = false := by
  decide

/-- C4: the claim states that `read k` with at least `k` bytes buffered
returns exactly `k` bytes.  The code violates it: `_slice` never
updates its `first_size` accumulator, so every chunk no longer than `k`
is appended whole to the result.  With two one-byte chunks buffered,
`read 1` returns both bytes (2 ≠ 1) without suspending. -/
theorem C4_read_wrong_byte_count :
    ((Buffer.init.append [97]).append [98]).length = 2
    ∧ Buffer.read ((Buffer.init.append [97]).append [98]) (some 1)
        = ReadResult.done [97, 98] ⟨[], 2, -1, false⟩
    ∧ ([97, 98] : List ℕ).length ≠ 1 := by
  decide

/-- C8: for every buffer state, `read` with a negative size fails
immediately with a `ValueError`, without suspending and with the
buffer state unchanged. -/
theorem C8_negative_size_validation (b : Buffer) (s : Int) (h : s < 0) :
    Buffer.read b (some s) = ReadResult.error b := by
  simp [Buffer.read, h]

/-- Witness for C8 at the concrete input `read (-1)` on a fresh buffer. -/
theorem C8_witness :
    (-1 : Int) < 0 ∧ Buffer.read Buffer.init (some (-1)) = ReadResult.error Buffer.init :=
  ⟨by decide, C8_negative_size_validation Buffer.init (-1) (by decide)⟩

/-- C7: whenever `Stream.recv_data` completes, the byte count passed to
`acknowledge_received_data` equals the length of the data the buffer
read actually returned (not the size requested), and the returned data
is exactly what the read produced. -/
theorem C7_ack_equals_returned_length (b : Buffer) (size : Option Int)
    (data : List ℕ) (ack : ℕ) (b' : Buffer)
    (h : Stream.recv_data b size = RecvResult.done data ack b') :
    ack = data.length ∧ Buffer.read b size = ReadResult.done data b' := by
  unfold Stream.recv_data at h
  cases hr : Buffer.read b size with
  | error b1 => rw [hr] at h; exact absurd h (by simp)
  | suspended b1 => rw [hr] at h; exact absurd h (by simp)
  | done d b1 =>
    rw [hr] at h
    cases h
    exact ⟨rfl, rfl⟩

/-- Witness for C7 at a short read: one byte buffered, `eof` fired,
`recv_data 5` returns one byte and acknowledges exactly 1. -/
theorem C7_witness :
    Stream.recv_data ((Buffer.init.append [104]).eof) (some 5)
        = RecvResult.done [104] 1 ⟨[], 1, -1, false⟩
    ∧ (1 = ([104] : List ℕ).length
       ∧ Buffer.read ((Buffer.init.append [104]).eof) (some 5)
           = ReadResult.done [104] ⟨[], 1, -1, false⟩) :=
  ⟨by decide, C7_ack_equals_returned_length _ _ _ _ _ (by decide)⟩

/-- C5 counterexample: the claim states that no further events of the
same ordered event sequence are processed after a connection-terminated
event.  The event loop of `data_received` has no early exit: with
stream 5 registered, processing `[connectionTerminated,
dataReceived 5 [104, 105]]` closes transport and handler and then
still appends the data to stream 5's buffer. -/
theorem C5_event_processed_after_terminate :
    processAll ⟨[(5, StreamState.init)]⟩
        [H2Event.connectionTerminated, H2Event.dataReceived 5 [104, 105]]
      = (⟨[(5, ⟨⟨[[104, 105]], 2, -1, false⟩, [], false⟩)]⟩,
         [ExtCall.transportClose, ExtCall.handlerClose], none) := by
  decide

/-- C5 (amended): processing a connection-terminated event closes the
transport and the handler once (per such event) and leaves the
processor state unchanged, and the event loop then continues with the
remaining events of the sequence exactly as it would have without the
terminated event. -/
theorem C5_terminate_closes_loop_continues :
    (∀ st : PState, EventsProcessor.process st H2Event.connectionTerminated
        = Except.ok (st, [ExtCall.transportClose, ExtCall.handlerClose]))
    ∧ (∀ (st : PState) (evs : List H2Event),
        processAll st (H2Event.connectionTerminated :: evs)
          = ((processAll st evs).1,
             ExtCall.transportClose :: ExtCall.handlerClose :: (processAll st evs).2.1,
             (processAll st evs).2.2)) := by
  exact ⟨fun st => rfl, fun st evs => rfl⟩

/-- C6: dispatching an event whose class is not registered in the
`processors` dict raises `NotImplementedError` (it is never silently
dropped), and an event whose class is registered is passed to exactly
the routine the dict maps its class to; the dict maps each of the
eleven registered classes to its designated routine. -/
theorem C6_dispatch_table :
    (∀ (st : PState) (s : String),
        EventsProcessor.process st (H2Event.unknown s) = Except.error PyErr.notImplementedError)
    ∧ (∀ s : String, dictGet processors (EventClass.unknown s) = none)
    ∧ (∀ (st : PState) (ev : H2Event) (p : ProcName),
        dictGet processors ev.cls = some p →
        EventsProcessor.process st ev = runProcessor p st ev)
    ∧ (dictGet processors EventClass.requestReceived = some ProcName.process_request_received
       ∧ dictGet processors EventClass.responseReceived = some ProcName.process_response_received
       ∧ dictGet processors EventClass.remoteSettingsChanged
           = some ProcName.process_remote_settings_changed
       ∧ dictGet processors EventClass.settingsAcknowledged
           = some ProcName.process_settings_acknowledged
       ∧ dictGet processors EventClass.dataReceived = some ProcName.process_data_received
       ∧ dictGet processors EventClass.windowUpdated = some ProcName.process_window_updated
       ∧ dictGet processors EventClass.trailersReceived = some ProcName.process_trailers_received
       ∧ dictGet processors EventClass.streamEnded = some ProcName.process_stream_ended
       ∧ dictGet processors EventClass.streamReset = some ProcName.process_stream_reset
       ∧ dictGet processors EventClass.priorityUpdated = some ProcName.process_priority_updated
       ∧ dictGet processors EventClass.connectionTerminated
           = some ProcName.process_connection_terminated) := by
  refine ⟨fun st s => rfl, fun s => rfl, fun st ev p h => ?_, by decide⟩
  unfold EventsProcessor.process
  rw [h]

/-- Witness for C6: the stream-ended event's class is registered and
`process` invokes exactly `process_stream_ended` on it. -/
theorem C6_witness :
    dictGet processors (H2Event.cls (H2Event.streamEnded 3)) = some ProcName.process_stream_ended
    ∧ EventsProcessor.process ⟨[(3, StreamState.init)]⟩ (H2Event.streamEnded 3)
        = runProcessor ProcName.process_stream_ended ⟨[(3, StreamState.init)]⟩
            (H2Event.streamEnded 3) :=
  ⟨by decide, C6_dispatch_table.2.2.1 _ _ _ (by decide)⟩

/-- Invariant of the `send_data` loop: a completed run starting at file
position `pos` emits chunks whose lengths sum to `len(data) - pos`,
with `end_stream` false on every chunk except the last, which carries
the caller's flag. -/
theorem sendDataLoop_spec (c : Connection) (data : List ℕ) (es : Bool) (w : ℕ → ℕ) :
    ∀ (fuel pos qi : ℕ) (out : List (List ℕ × Bool)), pos ≤ data.length →
      sendDataLoop c data es w fuel pos qi = some (SendOutcome.out out) →
      ((out.map fun p => p.1.length).sum = data.length - pos
        ∧ out.map Prod.snd = List.replicate (out.length - 1) false ++ [es]) := by
  intro fuel
  induction fuel with
  | zero =>
    intro pos qi out _ h
    simp [sendDataLoop] at h
  | succ n ih =>
    intro pos qi out hpos h
    have key : ∀ (window qi2 : ℕ),
        (if pos + ((data.drop pos).take (min window (data.length - pos))).length = data.length
         then some (SendOutcome.out [((data.drop pos).take (min window (data.length - pos)), es)])
         else
           match sendDataLoop c data es w n
               (pos + ((data.drop pos).take (min window (data.length - pos))).length) qi2 with
           | none => none
           | some SendOutcome.blockedOnGate => some SendOutcome.blockedOnGate
           | some (SendOutcome.out rest) =>
             some (SendOutcome.out
               (((data.drop pos).take (min window (data.length - pos)), false) :: rest)))
          = some (SendOutcome.out out) →
        ((out.map fun p => p.1.length).sum = data.length - pos
          ∧ out.map Prod.snd = List.replicate (out.length - 1) false ++ [es]) := by
      intro window qi2 hstep
      have hcl : ((data.drop pos).take (min window (data.length - pos))).length
          ≤ data.length - pos := by
        simp [List.length_take]
      split at hstep
      · next heq =>
        rw [Option.some.injEq, SendOutcome.out.injEq] at hstep
        subst hstep
        refine ⟨?_, by simp⟩
        simp only [List.map_cons, List.map_nil, List.sum_cons, List.sum_nil]
        omega
      · next hne =>
        split at hstep
        · exact absurd hstep (by simp)
        · exact absurd hstep (by simp)
        · next rest hrec =>
          rw [Option.some.injEq, SendOutcome.out.injEq] at hstep
          subst hstep
          obtain ⟨ihsum, ihflags⟩ := ih _ _ rest (by omega) hrec
          refine ⟨?_, ?_⟩
          · simp only [List.map_cons, List.sum_cons]
            omega
          · cases rest with
            | nil => simp at ihflags
            | cons r rs =>
              simp only [List.map_cons, List.length_cons] at ihflags ⊢
              rw [ihflags]
              simp [List.replicate_succ]
    simp only [sendDataLoop] at h
    split at h
    · exact absurd h (by simp)
    · by_cases hq : w qi = 0
      · simp only [if_pos hq] at h
        exact key (w (qi + 1)) (qi + 2) h
      · simp only [if_neg hq] at h
        exact key (w qi) (qi + 1) h

/-- C1: for every completed `Stream.send_data(data, end_stream=True)`
call, under any sequence of flow-control window values returned by the
engine, the chunk lengths across all engine `send_data` invocations sum
to `len(data)`, and `end_stream` is passed as true on exactly the last
invocation and on no earlier one. -/
theorem C1_send_data_exact (c : Connection) (data : List ℕ) (w : ℕ → ℕ) (fuel : ℕ)
    (out : List (List ℕ × Bool))
    (h : Stream.send_data c data true w fuel = some (SendOutcome.out out)) :
    (out.map fun p => p.1.length).sum = data.length
    ∧ out.map Prod.snd = List.replicate (out.length - 1) false ++ [true] := by
  have hs := sendDataLoop_spec c data true w fuel 0 0 out (Nat.zero_le _) h
  simpa using hs

/-- Witness for C1: five bytes sent under a constant window of 2 emit
chunks of 2, 2 and 1 bytes with `end_stream` only on the last. -/
theorem C1_witness :
    Stream.send_data Connection.init [1, 2, 3, 4, 5] true (fun _ => 2) 10
        = some (SendOutcome.out [([1, 2], false), ([3, 4], false), ([5], true)])
    ∧ ((([([1, 2], false), ([3, 4], false), ([5], true)] : List (List ℕ × Bool)).map
          fun p => p.1.length).sum = ([1, 2, 3, 4, 5] : List ℕ).length
       ∧ ([([1, 2], false), ([3, 4], false), ([5], true)] : List (List ℕ × Bool)).map Prod.snd
           = List.replicate ((([([1, 2], false), ([3, 4], false), ([5], true)]
               : List (List ℕ × Bool))).length - 1) false ++ [true]) :=
  ⟨by decide, C1_send_data_exact Connection.init [1, 2, 3, 4, 5] (fun _ => 2) 10 _ (by decide)⟩

/-- A sequence of backpressure callbacks that contains no
`pause_writing` leaves `write_ready` set. -/
theorem applyAll_write_ready (ops : List ConnOp) :
    ∀ c : Connection, c.write_ready = true → ConnOp.pause_writing ∉ ops →
      (Connection.applyAll c ops).write_ready = true := by
  induction ops with
  | nil => intro c hc _; exact hc
  | cons op rest ih =>
    intro c hc hni
    cases op with
    | pause_writing => exact absurd (List.mem_cons_self _ _) hni
    | resume_writing =>
      exact ih _ rfl fun hm => hni (List.mem_cons_of_mem _ hm)

/-- With `write_ready` set, the `send_data` loop never suspends on the
write-readiness gate. -/
theorem sendDataLoop_ready_no_gate_block (c : Connection) (hc : c.write_ready = true)
    (data : List ℕ) (es : Bool) (w : ℕ → ℕ) :
    ∀ fuel pos qi, sendDataLoop c data es w fuel pos qi ≠ some SendOutcome.blockedOnGate := by
  intro fuel
  induction fuel with
  | zero => intro pos qi; simp [sendDataLoop]
  | succ n ih =>
    intro pos qi h
    have key : ∀ (window qi2 : ℕ),
        (if pos + ((data.drop pos).take (min window (data.length - pos))).length = data.length
         then some (SendOutcome.out [((data.drop pos).take (min window (data.length - pos)), es)])
         else
           match sendDataLoop c data es w n
               (pos + ((data.drop pos).take (min window (data.length - pos))).length) qi2 with
           | none => none
           | some SendOutcome.blockedOnGate => some SendOutcome.blockedOnGate
           | some (SendOutcome.out rest) =>
             some (SendOutcome.out
               (((data.drop pos).take (min window (data.length - pos)), false) :: rest)))
          = some SendOutcome.blockedOnGate → False := by
      intro window qi2 hstep
      split at hstep
      · exact absurd hstep (by simp)
      · split at hstep
        · exact absurd hstep (by simp)
        · next hrec => exact ih _ _ hrec
        · next rest hrec => exact absurd hstep (by simp)
    simp only [sendDataLoop] at h
    rw [if_neg (by simp [hc])] at h
    by_cases hq : w qi = 0
    · simp only [if_pos hq] at h
      exact key (w (qi + 1)) (qi + 2) h
    · simp only [if_neg hq] at h
      exact key (w qi) (qi + 1) h

/-- C10: a newly constructed `Connection` has `write_ready` set;
`pause_writing` clears it and `resume_writing` sets it; after any
sequence of backpressure callbacks without a `pause_writing`, the
signal is still set, so `send_headers` submits without suspending on
the gate and `send_data` never suspends on the gate. -/
theorem C10_write_ready_init_gate :
    Connection.init.write_ready = true
    ∧ (∀ c : Connection, (Connection.pause_writing c).write_ready = false)
    ∧ (∀ c : Connection, (Connection.resume_writing c).write_ready = true)
    ∧ (∀ ops : List ConnOp, ConnOp.pause_writing ∉ ops →
        (Connection.applyAll Connection.init ops).write_ready = true)
    ∧ (∀ (c : Connection) (hs : List (String × String)) (es : Bool), c.write_ready = true →
        Stream.send_headers c hs es = SendHeadersStep.sent hs es)
    ∧ (∀ (c : Connection) (data : List ℕ) (es : Bool) (w : ℕ → ℕ) (fuel pos qi : ℕ),
        c.write_ready = true →
        sendDataLoop c data es w fuel pos qi ≠ some SendOutcome.blockedOnGate) := by
  refine ⟨rfl, fun c => rfl, fun c => rfl,
    fun ops h => applyAll_write_ready ops Connection.init rfl h,
    fun c hs es hc => ?_,
    fun c data es w fuel pos qi hc => sendDataLoop_ready_no_gate_block c hc data es w fuel pos qi⟩
  simp [Stream.send_headers, hc]

/-- Witness for C10: two `resume_writing` callbacks keep the gate open,
`send_headers` submits immediately, and a concrete `send_data` run is
not gate-blocked. -/
theorem C10_witness :
    (ConnOp.pause_writing ∉ [ConnOp.resume_writing, ConnOp.resume_writing])
    ∧ (Connection.applyAll Connection.init
        [ConnOp.resume_writing, ConnOp.resume_writing]).write_ready = true
    ∧ Stream.send_headers Connection.init [] false = SendHeadersStep.sent [] false
    ∧ sendDataLoop Connection.init [1, 2] true (fun _ => 8) 5 0 0
        ≠ some SendOutcome.blockedOnGate :=
  ⟨by decide,
   C10_write_ready_init_gate.2.2.2.1 _ (by decide),
   C10_write_ready_init_gate.2.2.2.2.1 _ _ _ (by rfl),
   C10_write_ready_init_gate.2.2.2.2.2 _ _ _ _ _ _ _ (by rfl)⟩
